import Mathlib

/-!
Shallow embedding of the lumberjack process-metrics reporter
(src/lumberjack/process_metrics.py, src/lumberjack/utils/context_manager.py,
src/lumberjack/metrics_config.py).

Timestamps (`datetime.utcnow().isoformat()`) are modelled by explicit string
parameters `now`: each operation that reads the clock takes the clock's
reading as an argument.  The remote ingestion client
(`LogsIngestionClient.upload`) is modelled by an `UploadOutcome` oracle
argument saying whether the upload call returns a result, raises
`HttpResponseError`, or raises some other exception.  Calls to the standard
`logging` module and to the client are recorded as explicit event lists.
-/

namespace Lumberjack

/-- JSON values, as produced by `json.dumps`/`json.loads` in `log()`. -/
inductive JsonVal where
  | null : JsonVal
  | str : String → JsonVal
  | arr : List JsonVal → JsonVal
  | obj : List (String × JsonVal) → JsonVal

/-- Python `str.capitalize`: first character upper-cased, the rest lower-cased. -/
def pyCapitalize : List Char → List Char
  | [] => []
  | c :: cs => c.toUpper :: cs.map Char.toLower

/-- Split a character list on spaces, dropping empty words, as Python
`str.split()` does on these keys; `acc` holds the current word reversed. -/
def splitWords : List Char → List Char → List (List Char)
  | [], acc => if acc.isEmpty then [] else [acc.reverse]
  | c :: cs, acc =>
      if c = ' ' then
        if acc.isEmpty then splitWords cs [] else acc.reverse :: splitWords cs []
      else
        splitWords cs (c :: acc)

/-- The key transformation of `ProcessMetricsEncoder.default`:
`string.capwords(k.replace("_", " ")).replace(" ", "")`.
The single-character replace turns each underscore into a space; `capwords`
splits on whitespace (dropping empty words), capitalizes each word and rejoins
with spaces; the final `replace` removes those separators again, so the net
effect is the concatenation of the capitalized words. -/
def pascalKey (k : String) : String :=
  String.mk (List.flatten ((splitWords (k.data.map fun c => if c = '_' then ' ' else c) []).map
    pyCapitalize))

/-- `ProcessMetricsConfig.environment`: `os.getenv("app", "DEV")`. -/
def defaultEnvironment (appEnvVar : Option String) : String :=
  appEnvVar.getD "DEV"

/-- The `ProcessMetrics` dataclass (src/lumberjack/process_metrics.py lines 27-46). -/
structure ProcessMetrics where
  time_generated : Option String
  process_name : Option String
  execution_id : Option String
  environment : String
  status : Option String
  start_time : Option String
  end_time : Option String
  error_message : List String
  mlflow_url : Option String
  execution_details : List (String × JsonVal)

/-- `ProcessMetrics()` with all defaults: every field `None`/empty except
`environment`, which is resolved from configuration at construction time.
Note `status` defaults to `None` in the source (line 41), not `"IN PROGRESS"`. -/
def ProcessMetrics.init (env : String) : ProcessMetrics :=
  { time_generated := none
    process_name := none
    execution_id := none
    environment := env
    status := none
    start_time := none
    end_time := none
    error_message := []
    mlflow_url := none
    execution_details := [] }

/-- A nullable string as a JSON value. -/
def optJson : Option String → JsonVal
  | none => JsonVal.null
  | some s => JsonVal.str s

/-- `ProcessMetricsEncoder.default`: iterate `o.__dict__.items()` in dataclass
field order, rename each key with the `capwords` transformation, and pass the
values through unmodified. -/
def ProcessMetrics.encode (m : ProcessMetrics) : List (String × JsonVal) :=
  [ (pascalKey "time_generated", optJson m.time_generated),
    (pascalKey "process_name", optJson m.process_name),
    (pascalKey "execution_id", optJson m.execution_id),
    (pascalKey "environment", JsonVal.str m.environment),
    (pascalKey "status", optJson m.status),
    (pascalKey "start_time", optJson m.start_time),
    (pascalKey "end_time", optJson m.end_time),
    (pascalKey "error_message", JsonVal.arr (m.error_message.map JsonVal.str)),
    (pascalKey "mlflow_url", optJson m.mlflow_url),
    (pascalKey "execution_details", JsonVal.obj m.execution_details) ]

/-- `azure.monitor.ingestion.UploadLogsStatus` (only `SUCCESS` is inspected by
the source; any other value is a non-success upload status). -/
inductive UploadLogsStatus where
  | SUCCESS : UploadLogsStatus
  | PARTIAL_FAILURE : UploadLogsStatus
  deriving DecidableEq

/-- `azure.monitor.ingestion.UploadLogsResult`: upload status plus the entries
that failed to upload. -/
structure UploadLogsResult where
  status : UploadLogsStatus
  failed_logs : List JsonVal

/-- Behaviour of the external `LogsIngestionClient.upload` call: it either
returns a result, raises `azure.core.exceptions.HttpResponseError`, or raises
some other exception (carried as its string representation). -/
inductive UploadOutcome where
  | ok : UploadLogsResult → UploadOutcome
  | httpResponseError : String → UploadOutcome
  | unexpectedError : String → UploadOutcome

/-- `ProcessMetricsConfig`: environment, data-collection rule id, endpoint and
stream name, resolved once and read-only afterwards. -/
structure ProcessMetricsConfig where
  environment : String
  rule_id : String
  endpoint : String
  stream_name : String

/-- The mutable state of a `MetricsLogger` instance: its `ProcessMetrics`
record and the configuration values copied in `__init__`. -/
structure MetricsLogger where
  metrics : ProcessMetrics
  rule_id : String
  endpoint : String
  stream_name : String

/-- `MetricsLogger.__init__`: a blank `ProcessMetrics` object plus the
configured rule id, endpoint and stream name. -/
def MetricsLogger.init (cfg : ProcessMetricsConfig) : MetricsLogger :=
  { metrics := ProcessMetrics.init cfg.environment
    rule_id := cfg.rule_id
    endpoint := cfg.endpoint
    stream_name := cfg.stream_name }

/-- `MetricsLogger.setup_metrics(process_name)`: compute `start_time` once
from the clock, then set `process_name`, `execution_id` and `start_time`. -/
def MetricsLogger.setup_metrics (l : MetricsLogger) (process_name : String)
    (now : String) : MetricsLogger :=
  { l with metrics :=
      { l.metrics with
          process_name := some process_name
          execution_id := some (process_name ++ "@" ++ now)
          start_time := some now } }

/-- `MetricsLogger.complete_metrics(status, mlflow_url)`: set `status`,
`mlflow_url` and `end_time`; nothing else. -/
def MetricsLogger.complete_metrics (l : MetricsLogger) (status : String)
    (mlflow_url : Option String) (now : String) : MetricsLogger :=
  { l with metrics :=
      { l.metrics with
          status := some status
          mlflow_url := mlflow_url
          end_time := some now } }

/-- Observable side effects of `log()`: the upload call itself and the calls
to the `logging` module. -/
inductive LogEvent where
  | uploadCalled : String → String → List (List (String × JsonVal)) → LogEvent
  | warnFailedLogs : List JsonVal → LogEvent
  | infoStatus : UploadLogsStatus → LogEvent
  | errorHttpResponse : String → LogEvent
  | errorUnexpected : String → LogEvent

/-- How a call to `log()`/`log_error()` finishes: a normal return (with the
returned value, which is `None` on the swallowed `HttpResponseError` path) or
a re-raised exception. -/
inductive LogResult where
  | ret : Option UploadLogsResult → LogResult
  | raised : String → LogResult

/-- `MetricsLogger.log()`: stamp `time_generated`, encode the record, wrap it
in a single-element list, and call `upload`.  A returned result with
non-success status has its `failed_logs` logged as a warning and is returned
unchanged; a success result is logged at info level and returned unchanged;
`HttpResponseError` is logged and swallowed (the function then returns `None`,
i.e. `LogResult.ret none`); any other exception is logged and re-raised. -/
def MetricsLogger.log (l : MetricsLogger) (now : String) (outcome : UploadOutcome) :
    MetricsLogger × List LogEvent × LogResult :=
  let l' : MetricsLogger := { l with metrics := { l.metrics with time_generated := some now } }
  let metrics_logs : List (List (String × JsonVal)) := [l'.metrics.encode]
  let callEv : LogEvent := LogEvent.uploadCalled l'.rule_id l'.stream_name metrics_logs
  match outcome with
  | UploadOutcome.ok r =>
      let evs : List LogEvent :=
        if r.status ≠ UploadLogsStatus.SUCCESS then
          [callEv, LogEvent.warnFailedLogs r.failed_logs]
        else
          [callEv, LogEvent.infoStatus r.status]
      (l', evs, LogResult.ret (some r))
  | UploadOutcome.httpResponseError msg =>
      (l', [callEv, LogEvent.errorHttpResponse msg], LogResult.ret none)
  | UploadOutcome.unexpectedError msg =>
      (l', [callEv, LogEvent.errorUnexpected msg], LogResult.raised msg)

/-- `MetricsLogger.log_error(error)`: append the error's string representation
to `error_message`, force `status = "FAILURE"`, then delegate to `log()` and
return its result. -/
def MetricsLogger.log_error (l : MetricsLogger) (error : String) (now : String)
    (outcome : UploadOutcome) : MetricsLogger × List LogEvent × LogResult :=
  let l' : MetricsLogger := { l with metrics :=
      { l.metrics with
          error_message := l.metrics.error_message ++ [error]
          status := some "FAILURE" } }
  MetricsLogger.log l' now outcome

/-- Observable side effects of the context-manager guard: lock acquisition and
release, and the reporter calls it makes, in order. -/
inductive CtxEvent where
  | acquire : CtxEvent
  | setupCalled : String → CtxEvent
  | completeCalled : String → Option String → CtxEvent
  | logCalled : CtxEvent
  | logErrorCalled : String → CtxEvent
  | release : CtxEvent
  deriving DecidableEq

/-- The `ContextLogger` guard state: the wrapped `MetricsLogger`, the process
name, the optional artifact url, the suppress flag, and whether a lock object
was supplied (`lock : Bool` models `self.__lock is not None`). -/
structure ContextLogger where
  logger : MetricsLogger
  process_name : String
  mlflow_url : Option String
  suppress : Bool
  lock : Bool

/-- The `utils/context_manager.py` constructor: wrap a caller-supplied
`MetricsLogger`. -/
def ContextLogger.ofLogger (metrics_logger : MetricsLogger) (process_name : String)
    (mlflow_url : Option String) (suppress : Bool) (lock : Bool) : ContextLogger :=
  { logger := metrics_logger
    process_name := process_name
    mlflow_url := mlflow_url
    suppress := suppress
    lock := lock }

/-- The `process_metrics.py` constructor: `self._logger = MetricsLogger()` —
a freshly constructed logger, independent of any existing instance. -/
def ContextLogger.init (cfg : ProcessMetricsConfig) (process_name : String)
    (mlflow_url : Option String) (suppress : Bool) (lock : Bool) : ContextLogger :=
  { logger := MetricsLogger.init cfg
    process_name := process_name
    mlflow_url := mlflow_url
    suppress := suppress
    lock := lock }

/-- `MetricsLogger.context(process_name, ...)`: a static method — it takes no
instance, only the module-level configuration — returning a fresh
`ContextLogger`, which itself constructs a fresh `MetricsLogger`. -/
def MetricsLogger.context (cfg : ProcessMetricsConfig) (process_name : String)
    (mlflow_url : Option String) (suppress : Bool) (lock : Bool) : ContextLogger :=
  ContextLogger.init cfg process_name mlflow_url suppress lock

/-- `ContextLogger.__enter__`: acquire the lock (blocking) if one was
supplied, then call `setup_metrics(process_name)`, then yield the logger. -/
def ContextLogger.enter (c : ContextLogger) (now : String) :
    ContextLogger × List CtxEvent :=
  ( { c with logger := c.logger.setup_metrics c.process_name now },
    (if c.lock then [CtxEvent.acquire] else []) ++ [CtxEvent.setupCalled c.process_name] )

/-- How `ContextLogger.__exit__` finishes: it returns its `suppress` flag
(Python re-raises the in-scope exception exactly when the returned value is
false), or `log`/`log_error` raised inside it, in which case the return
statement and the lock release are never reached and the new exception
propagates. -/
inductive ExitOutcome where
  | exited : Bool → ExitOutcome
  | raisedDuringExit : String → ExitOutcome

/-- `ContextLogger.__exit__(exc_type, exc_info, traceback)`.  On an in-scope
exception CPython passes all three arguments non-`None`, on a normal exit all
three `None`, so `any([exc_type, exc_info, traceback])` is modelled by an
`Option String` carrying the exception's string representation.  The status is
`"SUCCESS"` unless an exception occurred, `complete_metrics` runs first, then
`log_error(exc_info)` or `log()`; the lock release runs only if that call
returned normally (there is no try/finally), and finally `suppress` is
returned. -/
def ContextLogger.exit (c : ContextLogger) (exc : Option String)
    (nowComplete nowLog : String) (outcome : UploadOutcome) :
    ContextLogger × List CtxEvent × ExitOutcome :=
  let status : String := if exc.isSome then "FAILURE" else "SUCCESS"
  let l1 : MetricsLogger := c.logger.complete_metrics status c.mlflow_url nowComplete
  let ev1 : List CtxEvent := [CtxEvent.completeCalled status c.mlflow_url]
  let step : MetricsLogger × List CtxEvent × LogResult :=
    match exc with
    | some e =>
        let r := l1.log_error e nowLog outcome
        (r.1, [CtxEvent.logErrorCalled e], r.2.2)
    | none =>
        let r := l1.log nowLog outcome
        (r.1, [CtxEvent.logCalled], r.2.2)
  match step.2.2 with
  | LogResult.raised msg =>
      ({ c with logger := step.1 }, ev1 ++ step.2.1, ExitOutcome.raisedDuringExit msg)
  | LogResult.ret _ =>
      ({ c with logger := step.1 },
       ev1 ++ step.2.1 ++ (if c.lock then [CtxEvent.release] else []),
       ExitOutcome.exited c.suppress)

/-- One reporter operation, with the clock readings and upload behaviour it
sees. -/
inductive Op where
  | setup : String → String → Op
  | complete : String → Option String → String → Op
  | logOp : String → UploadOutcome → Op
  | logErrorOp : String → String → UploadOutcome → Op

/-- The state transition of one reporter operation. -/
def stepLogger (l : MetricsLogger) : Op → MetricsLogger
  | Op.setup n now => l.setup_metrics n now
  | Op.complete s url now => l.complete_metrics s url now
  | Op.logOp now outcome => (l.log now outcome).1
  | Op.logErrorOp e now outcome => (l.log_error e now outcome).1

/-- The `logging`/upload events of one reporter operation (`setup_metrics`
and `complete_metrics` make no upload and no logging call). -/
def opEvents (l : MetricsLogger) : Op → List LogEvent
  | Op.setup _ _ => []
  | Op.complete _ _ _ => []
  | Op.logOp now outcome => (l.log now outcome).2.1
  | Op.logErrorOp e now outcome => (l.log_error e now outcome).2.1

/-- Run a sequence of reporter operations on one logger. -/
def runOps (l : MetricsLogger) : List Op → MetricsLogger
  | [] => l
  | op :: ops => runOps (stepLogger l op) ops

/-- Whether an operation calls `complete_metrics` only with a status in
`SUCCESS` / `FAILURE` — the domain the spec gives `complete`. -/
def validComplete : Op → Bool
  | Op.complete s _ _ => s = "SUCCESS" || s = "FAILURE"
  | _ => true

/-- The record's status is terminal: `SUCCESS` or `FAILURE`. -/
def terminalStatus (m : ProcessMetrics) : Prop :=
  m.status = some "SUCCESS" ∨ m.status = some "FAILURE"

instance (m : ProcessMetrics) : Decidable (terminalStatus m) := by
  unfold terminalStatus; infer_instance

/-- The full `with m.context(name) as logger:` lifecycle run alongside the
instance `m` the static method was invoked on: construct the guard from the
module configuration, enter, exit.  The pair returned is (the invoking
instance's state afterwards, the guard's state afterwards); `context` being
static, `m` never flows into the guard. -/
def contextRunFrom (m : MetricsLogger) (cfg : ProcessMetricsConfig)
    (process_name : String) (mlflow_url : Option String) (suppress lock : Bool)
    (nowEnter : String) (exc : Option String) (nowComplete nowLog : String)
    (outcome : UploadOutcome) : MetricsLogger × ContextLogger :=
  let g := MetricsLogger.context cfg process_name mlflow_url suppress lock
  let g1 := (g.enter nowEnter).1
  let g2 := (g1.exit exc nowComplete nowLog outcome).1
  (m, g2)

/-- Whether the modelled upload call raises an exception other than
`HttpResponseError` — the only case in which `log()` itself raises. -/
def raisesUnexpected : UploadOutcome → Bool
  | UploadOutcome.unexpectedError _ => true
  | _ => false

/-- A concrete configuration for witnesses and counterexamples. -/
def cfg0 : ProcessMetricsConfig :=
  { environment := "DEV"
    rule_id := "dcr-abc123"
    endpoint := "https://dce.ingest.monitor"
    stream_name := "Custom-MLOpsPipelineLogs" }

/-- A freshly constructed `MetricsLogger()` over `cfg0`. -/
def logger0 : MetricsLogger := MetricsLogger.init cfg0

/-- A concrete guard over `logger0`, with a lock supplied and `suppress=False`. -/
def ctx0 : ContextLogger :=
  ContextLogger.ofLogger logger0 "task-pipe#step" (some "mlflow://run/1") false true

/-- A successful upload result. -/
def okResult : UploadLogsResult :=
  { status := UploadLogsStatus.SUCCESS, failed_logs := [] }

/-- A partial-failure upload result with one failed entry. -/
def failResult : UploadLogsResult :=
  { status := UploadLogsStatus.PARTIAL_FAILURE, failed_logs := [JsonVal.null] }

/-- Claim C1: on every exit path of the scoped-reporting guard, when the
reporting calls themselves return normally: with no in-scope error,
`complete` is called with `"SUCCESS"` and then `log()` once; with an in-scope
error, `complete` is called with `"FAILURE"` and then `log_error` exactly
once with the error's representation; the guard then returns its `suppress`
flag, so Python re-raises the original error exactly when `suppress` was
configured false. -/
theorem contextLogger_exit_reporting (c : ContextLogger) (nowC nowL : String)
    (outcome : UploadOutcome) (e : String) (h : raisesUnexpected outcome = false) :
    (c.exit none nowC nowL outcome).2.1 =
        CtxEvent.completeCalled "SUCCESS" c.mlflow_url :: CtxEvent.logCalled ::
          (if c.lock then [CtxEvent.release] else [])
    ∧ (c.exit none nowC nowL outcome).2.2 = ExitOutcome.exited c.suppress
    ∧ (c.exit (some e) nowC nowL outcome).2.1 =
        CtxEvent.completeCalled "FAILURE" c.mlflow_url :: CtxEvent.logErrorCalled e ::
          (if c.lock then [CtxEvent.release] else [])
    ∧ (c.exit (some e) nowC nowL outcome).2.2 = ExitOutcome.exited c.suppress := by
  cases outcome with
  | ok r => exact ⟨rfl, rfl, rfl, rfl⟩
  | httpResponseError msg => exact ⟨rfl, rfl, rfl, rfl⟩
  | unexpectedError msg => simp [raisesUnexpected] at h

/-- Claim C1, witness: the exit paths of the concrete guard `ctx0` around a
successful upload and around a `RuntimeError`. -/
theorem contextLogger_exit_reporting_witness :
    raisesUnexpected (UploadOutcome.ok okResult) = false
    ∧ ((ctx0.exit none "tc" "tl" (UploadOutcome.ok okResult)).2.1 =
        CtxEvent.completeCalled "SUCCESS" ctx0.mlflow_url :: CtxEvent.logCalled ::
          (if ctx0.lock then [CtxEvent.release] else [])
    ∧ (ctx0.exit none "tc" "tl" (UploadOutcome.ok okResult)).2.2 =
        ExitOutcome.exited ctx0.suppress
    ∧ (ctx0.exit (some "RuntimeError: boom") "tc" "tl" (UploadOutcome.ok okResult)).2.1 =
        CtxEvent.completeCalled "FAILURE" ctx0.mlflow_url ::
          CtxEvent.logErrorCalled "RuntimeError: boom" ::
          (if ctx0.lock then [CtxEvent.release] else [])
    ∧ (ctx0.exit (some "RuntimeError: boom") "tc" "tl" (UploadOutcome.ok okResult)).2.2 =
        ExitOutcome.exited ctx0.suppress) :=
  ⟨rfl, contextLogger_exit_reporting ctx0 "tc" "tl" (UploadOutcome.ok okResult)
    "RuntimeError: boom" rfl⟩

/-- Claim C2, counterexample: with a lock supplied, if `log`/`log_error`
raises during `__exit__` (here: an unexpected upload exception), the method
aborts before its `release()` line — the lock is never released, contradicting
the claim that release happens even then. -/
theorem contextLogger_lock_not_released_cex :
    ctx0.lock = true
    ∧ (ctx0.exit none "tc" "tl" (UploadOutcome.unexpectedError "boom")).2.2 =
        ExitOutcome.raisedDuringExit "boom"
    ∧ (ctx0.exit none "tc" "tl" (UploadOutcome.unexpectedError "boom")).2.1.count
        CtxEvent.release = 0 :=
  ⟨rfl, rfl, rfl⟩

/-- Claim C2, amended: on entry the lock (when supplied) is acquired exactly
once, before `setup_metrics` runs; on exit it is released exactly once
provided `log`/`log_error` returns normally; if `log`/`log_error` raises
during exit, the release line is never reached (there is no try/finally in
`__exit__`). -/
theorem contextLogger_lock_discipline (c : ContextLogger)
    (nowE nowC nowL e msg emsg : String) (r : UploadLogsResult) :
    (c.enter nowE).2 =
        (if c.lock then [CtxEvent.acquire] else []) ++ [CtxEvent.setupCalled c.process_name]
    ∧ (c.exit none nowC nowL (UploadOutcome.ok r)).2.1 =
        [CtxEvent.completeCalled "SUCCESS" c.mlflow_url, CtxEvent.logCalled]
          ++ (if c.lock then [CtxEvent.release] else [])
    ∧ (c.exit (some e) nowC nowL (UploadOutcome.ok r)).2.1 =
        [CtxEvent.completeCalled "FAILURE" c.mlflow_url, CtxEvent.logErrorCalled e]
          ++ (if c.lock then [CtxEvent.release] else [])
    ∧ (c.exit none nowC nowL (UploadOutcome.httpResponseError msg)).2.1 =
        [CtxEvent.completeCalled "SUCCESS" c.mlflow_url, CtxEvent.logCalled]
          ++ (if c.lock then [CtxEvent.release] else [])
    ∧ (c.exit none nowC nowL (UploadOutcome.unexpectedError emsg)).2.1 =
        [CtxEvent.completeCalled "SUCCESS" c.mlflow_url, CtxEvent.logCalled]
    ∧ (c.exit (some e) nowC nowL (UploadOutcome.unexpectedError emsg)).2.1 =
        [CtxEvent.completeCalled "FAILURE" c.mlflow_url, CtxEvent.logErrorCalled e] :=
  ⟨rfl, rfl, rfl, rfl, rfl, rfl⟩

/-- Claim C3 (code_bug): encoding a freshly constructed record — all defaults,
environment resolved to `"DEV"` — yields `Status: null`, because
`ProcessMetrics.status` defaults to `None` in the source, not to
`"IN PROGRESS"` as the claim and the repository's own unit test
`test_process_metrics_encoder` expect.  All other fields match the claim. -/
theorem encode_fresh_record :
    (ProcessMetrics.init (defaultEnvironment none)).encode =
      [("TimeGenerated", JsonVal.null),
       ("ProcessName", JsonVal.null),
       ("ExecutionId", JsonVal.null),
       ("Environment", JsonVal.str "DEV"),
       ("Status", JsonVal.null),
       ("StartTime", JsonVal.null),
       ("EndTime", JsonVal.null),
       ("ErrorMessage", JsonVal.arr []),
       ("MlflowUrl", JsonVal.null),
       ("ExecutionDetails", JsonVal.obj [])] := rfl

/-- Claim C4: during `log()`, a returned partial-failure result (non-success
status, non-empty `failed_logs`) is not raised but returned unchanged after
its failed entries are logged; a raised `HttpResponseError` is logged and
swallowed (normal return); any other raised exception is logged and
re-raised. -/
theorem log_upload_error_paths (l : MetricsLogger) (now : String)
    (r : UploadLogsResult) (msg emsg : String)
    (hr : r.status ≠ UploadLogsStatus.SUCCESS) (hf : r.failed_logs ≠ []) :
    (l.log now (UploadOutcome.ok r)).2.2 = LogResult.ret (some r)
    ∧ LogEvent.warnFailedLogs r.failed_logs ∈ (l.log now (UploadOutcome.ok r)).2.1
    ∧ (l.log now (UploadOutcome.httpResponseError msg)).2.2 = LogResult.ret none
    ∧ LogEvent.errorHttpResponse msg ∈ (l.log now (UploadOutcome.httpResponseError msg)).2.1
    ∧ (l.log now (UploadOutcome.unexpectedError emsg)).2.2 = LogResult.raised emsg
    ∧ LogEvent.errorUnexpected emsg ∈ (l.log now (UploadOutcome.unexpectedError emsg)).2.1 := by
  refine ⟨rfl, ?_, rfl, ?_, rfl, ?_⟩ <;> simp [MetricsLogger.log, hr]

/-- Claim C4, witness: the three upload behaviours at the fresh logger, with
the concrete partial-failure result `failResult`. -/
theorem log_upload_error_paths_witness :
    failResult.status ≠ UploadLogsStatus.SUCCESS
    ∧ failResult.failed_logs ≠ []
    ∧ ((logger0.log "t0" (UploadOutcome.ok failResult)).2.2 = LogResult.ret (some failResult)
    ∧ LogEvent.warnFailedLogs failResult.failed_logs ∈
        (logger0.log "t0" (UploadOutcome.ok failResult)).2.1
    ∧ (logger0.log "t0" (UploadOutcome.httpResponseError "http 500")).2.2 = LogResult.ret none
    ∧ LogEvent.errorHttpResponse "http 500" ∈
        (logger0.log "t0" (UploadOutcome.httpResponseError "http 500")).2.1
    ∧ (logger0.log "t0" (UploadOutcome.unexpectedError "TypeError")).2.2 =
        LogResult.raised "TypeError"
    ∧ LogEvent.errorUnexpected "TypeError" ∈
        (logger0.log "t0" (UploadOutcome.unexpectedError "TypeError")).2.1) :=
  ⟨by decide, List.cons_ne_nil _ _,
   log_upload_error_paths logger0 "t0" failResult "http 500" "TypeError"
     (by decide) (List.cons_ne_nil _ _)⟩

/-- Claim C5, counterexample: when the upload call raises
`HttpResponseError`, `log()` still returns normally, but the value it returns
is `None` (no upload result exists on that path), not an `UploadLogsResult`
produced by the client. -/
theorem log_returns_none_on_http_error_cex :
    (logger0.log "t0" (UploadOutcome.httpResponseError "service 500")).2.2 =
      LogResult.ret none := rfl

/-- Claim C5, amended: whenever the upload call itself returns a result,
`log()` returns exactly that result; when the upload raises
`HttpResponseError`, `log()` returns normally but with `None` instead of an
upload result. -/
theorem log_return_value (l : MetricsLogger) (now : String) (r : UploadLogsResult)
    (msg : String) :
    (l.log now (UploadOutcome.ok r)).2.2 = LogResult.ret (some r)
    ∧ (l.log now (UploadOutcome.httpResponseError msg)).2.2 = LogResult.ret none :=
  ⟨rfl, rfl⟩

/-- Claim C6: for every error string and prior state, `log_error` appends the
error to `error_message` (keeping the earlier entries), forces
`status = "FAILURE"`, leaves `end_time` and `mlflow_url` as they were, then
delegates to `log()` and returns `log()`'s result. -/
theorem log_error_spec (l : MetricsLogger) (e now : String) (outcome : UploadOutcome) :
    (l.log_error e now outcome).1.metrics.error_message = l.metrics.error_message ++ [e]
    ∧ (l.log_error e now outcome).1.metrics.status = some "FAILURE"
    ∧ (l.log_error e now outcome).1.metrics.end_time = l.metrics.end_time
    ∧ (l.log_error e now outcome).1.metrics.mlflow_url = l.metrics.mlflow_url
    ∧ (l.log_error e now outcome).2.2 =
        (MetricsLogger.log
          { l with metrics :=
              { l.metrics with
                  error_message := l.metrics.error_message ++ [e]
                  status := some "FAILURE" } } now outcome).2.2 := by
  cases outcome <;> exact ⟨rfl, rfl, rfl, rfl, rfl⟩

/-- Claim C7: for every non-empty process name, `setup_metrics` sets
`process_name`, sets `start_time` to the clock reading taken once at the top
of the call, and sets `execution_id` to the name, `"@"`, and that same
reading concatenated — so `execution_id` and `start_time` are set together. -/
theorem setup_metrics_spec (l : MetricsLogger) (name now : String) (h : name ≠ "") :
    (l.setup_metrics name now).metrics.process_name = some name
    ∧ (l.setup_metrics name now).metrics.start_time = some now
    ∧ (l.setup_metrics name now).metrics.execution_id = some (name ++ "@" ++ now) :=
  ⟨rfl, rfl, rfl⟩

/-- Claim C7, witness: `setup_metrics` at a concrete name and clock reading. -/
theorem setup_metrics_spec_witness :
    ("task-pipe#step" : String) ≠ ""
    ∧ ((logger0.setup_metrics "task-pipe#step" "2024-05-01T12:00:00").metrics.process_name =
        some "task-pipe#step"
    ∧ (logger0.setup_metrics "task-pipe#step" "2024-05-01T12:00:00").metrics.start_time =
        some "2024-05-01T12:00:00"
    ∧ (logger0.setup_metrics "task-pipe#step" "2024-05-01T12:00:00").metrics.execution_id =
        some ("task-pipe#step" ++ "@" ++ "2024-05-01T12:00:00")) :=
  ⟨by decide, setup_metrics_spec logger0 "task-pipe#step" "2024-05-01T12:00:00" (by decide)⟩

/-- Claim C8: `complete_metrics(status, mlflow_url)` sets `status`,
`mlflow_url` and `end_time` (to the clock reading) and changes no other field
of the record; it makes no upload and no logging call. -/
theorem complete_metrics_spec (l : MetricsLogger) (status : String)
    (url : Option String) (now : String) :
    (l.complete_metrics status url now).metrics.status = some status
    ∧ (l.complete_metrics status url now).metrics.mlflow_url = url
    ∧ (l.complete_metrics status url now).metrics.end_time = some now
    ∧ (l.complete_metrics status url now).metrics.time_generated = l.metrics.time_generated
    ∧ (l.complete_metrics status url now).metrics.process_name = l.metrics.process_name
    ∧ (l.complete_metrics status url now).metrics.execution_id = l.metrics.execution_id
    ∧ (l.complete_metrics status url now).metrics.environment = l.metrics.environment
    ∧ (l.complete_metrics status url now).metrics.start_time = l.metrics.start_time
    ∧ (l.complete_metrics status url now).metrics.error_message = l.metrics.error_message
    ∧ (l.complete_metrics status url now).metrics.execution_details = l.metrics.execution_details
    ∧ opEvents l (Op.complete status url now) = [] :=
  ⟨rfl, rfl, rfl, rfl, rfl, rfl, rfl, rfl, rfl, rfl, rfl⟩

/-- `log()` never changes the record's `status` field. -/
theorem log_preserves_status (l : MetricsLogger) (now : String) (o : UploadOutcome) :
    (l.log now o).1.metrics.status = l.metrics.status := by
  cases o <;> rfl

/-- Claim C9, counterexample: `complete_metrics` stores whatever status it is
given — its annotated type and docstring admit `"IN PROGRESS"` — so a later
`complete("IN PROGRESS", …)` moves the record's status backward from
`"SUCCESS"` to `"IN PROGRESS"`. -/
theorem metricsStatus_backslide_cex :
    (stepLogger logger0 (Op.complete "SUCCESS" none "t1")).metrics.status = some "SUCCESS"
    ∧ (stepLogger (stepLogger logger0 (Op.complete "SUCCESS" none "t1"))
        (Op.complete "IN PROGRESS" none "t2")).metrics.status = some "IN PROGRESS" :=
  ⟨rfl, rfl⟩

/-- Claim C9, amended: over every sequence of reporter operations in which
each `complete` call passes a status in `SUCCESS` / `FAILURE` (the domain the
spec gives `complete`), once the record's status is `SUCCESS` or `FAILURE` it
never returns to `IN PROGRESS`: `setup` and `log` leave the status unchanged,
`log_error` forces `FAILURE`, and a valid `complete` stores a terminal
status. -/
theorem metricsStatus_no_backward : ∀ (ops : List Op) (l : MetricsLogger),
    (∀ op ∈ ops, validComplete op = true) →
    terminalStatus l.metrics → terminalStatus (runOps l ops).metrics := by
  intro ops
  induction ops with
  | nil => exact fun l _ h => h
  | cons op ops ih =>
    intro l hv ht
    have hstep : terminalStatus (stepLogger l op).metrics := by
      cases op with
      | setup n now => exact ht
      | complete s url now =>
          have hs : s = "SUCCESS" ∨ s = "FAILURE" := by
            simpa [validComplete] using hv _ (List.mem_cons_self _ _)
          rcases hs with h1 | h1 <;> subst h1
          · exact Or.inl rfl
          · exact Or.inr rfl
      | logOp now o => cases o <;> exact ht
      | logErrorOp e now o => cases o <;> exact Or.inr rfl
    exact ih (stepLogger l op) (fun o ho => hv o (List.mem_cons_of_mem _ ho)) hstep

/-- Claim C9, witness: a concrete valid operation sequence run from a record
already completed with `"SUCCESS"` keeps a terminal status throughout. -/
theorem metricsStatus_no_backward_witness :
    (∀ op ∈ [Op.setup "p" "t1", Op.complete "FAILURE" none "t2",
             Op.logErrorOp "e" "t3" (UploadOutcome.ok okResult)],
        validComplete op = true)
    ∧ terminalStatus (stepLogger logger0 (Op.complete "SUCCESS" none "t0")).metrics
    ∧ terminalStatus (runOps (stepLogger logger0 (Op.complete "SUCCESS" none "t0"))
        [Op.setup "p" "t1", Op.complete "FAILURE" none "t2",
         Op.logErrorOp "e" "t3" (UploadOutcome.ok okResult)]).metrics :=
  ⟨by decide, by decide,
   metricsStatus_no_backward _ _ (by decide) (by decide)⟩

/-- Claim C10: `MetricsLogger.context` is static — it reads only the
module-level configuration, never an instance — and the guard it returns
wraps a freshly constructed `MetricsLogger` whose record is the blank
`ProcessMetrics`; running the whole guarded lifecycle leaves any existing
instance `m` untouched. -/
theorem context_yields_fresh_logger (cfg : ProcessMetricsConfig) (m : MetricsLogger)
    (process_name : String) (url : Option String) (sup lck : Bool)
    (nowE : String) (exc : Option String) (nowC nowL : String)
    (outcome : UploadOutcome) :
    (MetricsLogger.context cfg process_name url sup lck).logger = MetricsLogger.init cfg
    ∧ (MetricsLogger.context cfg process_name url sup lck).logger.metrics =
        ProcessMetrics.init cfg.environment
    ∧ (contextRunFrom m cfg process_name url sup lck nowE exc nowC nowL outcome).1 = m :=
  ⟨rfl, rfl, rfl⟩

end Lumberjack


